import Mathlib

set_option maxRecDepth 4000

/-!
Shallow embedding of the Interns-Portal eligibility and lifecycle logic.

The definitions below are translated from the route handlers of the
repository:
- applyChecks, createApplication, applyToInternship, applyToInternshipRaced
  embed applyToInternship in src/app/api/student/internships/[internshipId]/route.ts;
- getInternshipsBase embeds the base where-clause of getInternships in the
  same file;
- updateApplicationStatus embeds the handler of the same name in
  src/app/api/company/campaigns/route.ts;
- launchCampaign embeds launchCampaign in src/app/api/company/campaigns/route.ts;
- applyEdit and editCampaign embed editCampaign in src/unnamed/part_002;
- updateApplication embeds updateApplication in
  src/app/api/student/applications/[applicationId]/route.ts.

JavaScript dates are modelled as calendar dates ordered lexicographically;
setDate(1) together with setHours(0,0,0,0) becomes startOfMonth. JavaScript
string trimming is modelled by jsTrim, and JavaScript truthiness of an
optional string or number field of a JSON body is modelled by the jsTruthy
functions (absent values, null, the empty string and the number zero are
falsy).
-/

/-- Application status enum of the Prisma schema. -/
inductive AppStatus
  | PENDING
  | SHORTLISTED
  | ACCEPTED
  | REJECTED
deriving DecidableEq

/-- Campaign status enum of the Prisma schema. -/
inductive CampaignStatus
  | ACTIVE
  | PAUSED
  | COMPLETED
  | EXPIRED
deriving DecidableEq

/-- Subscription status enum of the Prisma schema. -/
inductive SubStatus
  | ACTIVE
  | CANCELED
  | EXPIRED
deriving DecidableEq

/-- Payment status enum of the Prisma schema. -/
inductive PayStatus
  | PENDING
  | COMPLETED
  | FAILED
  | REFUNDED
deriving DecidableEq

/-- Calendar instant: year, month, day and milliseconds within the day,
collapsing the hour, minute, second and millisecond fields that
setHours(0,0,0,0) zeroes at once. -/
structure Date where
  year : Nat
  month : Nat
  day : Nat
  ms : Nat
deriving DecidableEq

/-- Lexicographic order on calendar instants, the model of comparison of
JavaScript Date values. -/
def Date.leb (a b : Date) : Bool :=
  Nat.blt a.year b.year ||
    (a.year == b.year && (Nat.blt a.month b.month ||
      (a.month == b.month && (Nat.blt a.day b.day ||
        (a.day == b.day && Nat.ble a.ms b.ms)))))

/-- Strict comparison of calendar instants. -/
def Date.ltb (a b : Date) : Bool :=
  Date.leb a b && ! Date.leb b a

/-- Model of startOfMonth.setDate(1) followed by setHours(0,0,0,0) in
applyToInternship. -/
def startOfMonth (d : Date) : Date :=
  { d with day := 1, ms := 0 }

/-- JavaScript truthiness of an optional string field of a parsed JSON body:
absent, null and the empty string are falsy. -/
def jsTruthyStr : Option String → Bool
  | none => false
  | some s => ! decide (s = "")

/-- JavaScript truthiness of an optional integer field: absent, null and zero
are falsy. -/
def jsTruthyInt : Option Int → Bool
  | none => false
  | some n => ! (n == 0)

/-- JavaScript truthiness of an optional natural-number field: absent, null
and zero are falsy. -/
def jsTruthyNat : Option Nat → Bool
  | none => false
  | some n => ! (n == 0)

/-- Model of the JavaScript String.prototype.trim call: drop whitespace from
both ends. -/
def jsTrim (s : String) : String :=
  String.mk (((s.data.dropWhile Char.isWhitespace).reverse.dropWhile
    Char.isWhitespace).reverse)

/-- User row: identity plus the optional owned company (the include company
relation of the user queries). -/
structure User where
  id : Nat
  companyId : Option Nat
deriving DecidableEq

/-- Campaign row. -/
structure Campaign where
  id : Nat
  companyId : Nat
  title : String
  description : Option String
  budget : Int
  status : CampaignStatus
  startDate : Date
  endDate : Date
  maxInternships : Nat
  createdAt : Date
deriving DecidableEq

/-- CampaignPayment row, 1:1 with a campaign. -/
structure CampaignPayment where
  campaignId : Nat
  amount : Int
  paymentMethod : String
  transactionId : Option String
  status : PayStatus
deriving DecidableEq

/-- Internship row (the fields the eligibility logic reads). -/
structure Internship where
  id : Nat
  companyId : Nat
  campaignId : Nat
  isActive : Bool
  deadline : Date
deriving DecidableEq

/-- Application row. -/
structure Application where
  id : Nat
  internshipId : Nat
  userId : Nat
  coverLetter : String
  status : AppStatus
  createdAt : Date
  updatedAt : Date
deriving DecidableEq

/-- StudentPlan row; a missing maxApplicationsPerMonth means no cap. -/
structure StudentPlan where
  id : Nat
  name : String
  maxApplicationsPerMonth : Option Nat
deriving DecidableEq

/-- StudentSubscription row. -/
structure Subscription where
  userId : Nat
  planId : Nat
  status : SubStatus
  endsAt : Date
  createdAt : Date
deriving DecidableEq

/-- Relational store: the tables the embedded handlers read and write. -/
structure Store where
  users : List User
  campaigns : List Campaign
  campaignPayments : List CampaignPayment
  internships : List Internship
  applications : List Application
  subscriptions : List Subscription
  plans : List StudentPlan
deriving DecidableEq

/-- Model of prisma.internship.findUnique on id. -/
def findInternship (s : Store) (iid : Nat) : Option Internship :=
  s.internships.find? (fun i => i.id == iid)

/-- Lookup of the campaign relation included with an internship. -/
def findCampaign (s : Store) (cid : Nat) : Option Campaign :=
  s.campaigns.find? (fun c => c.id == cid)

/-- Model of prisma.application.findUnique on the compound unique key
internshipId_userId. -/
def findApplication (s : Store) (iid uid : Nat) : Option Application :=
  s.applications.find? (fun a => a.internshipId == iid && a.userId == uid)

/-- Lookup of a plan row by id (the include plan relation). -/
def findPlan (s : Store) (pid : Nat) : Option StudentPlan :=
  s.plans.find? (fun p => p.id == pid)

/-- Model of user lookup with include company: the owned company id, none
when the user is missing or owns no company. -/
def findUserCompany (s : Store) (uid : Nat) : Option Nat :=
  match s.users.find? (fun u => u.id == uid) with
  | none => none
  | some u => u.companyId

/-- Model of the subscriptions sub-query of applyToInternship: filter by
userId, status ACTIVE and endsAt gte now, order by createdAt descending,
take 1. The fold keeps the row with the latest createdAt. -/
def latestActiveSubscription (s : Store) (uid : Nat) (now : Date) :
    Option Subscription :=
  (s.subscriptions.filter (fun sub =>
      sub.userId == uid && decide (sub.status = SubStatus.ACTIVE) &&
        Date.leb now sub.endsAt)).foldl
    (fun acc sub =>
      match acc with
      | none => some sub
      | some b => if Date.ltb b.createdAt sub.createdAt then some sub else some b)
    none

/-- Model of prisma.application.count with userId and createdAt gte a lower
bound, used for the monthly quota. -/
def countApplicationsSince (s : Store) (uid : Nat) (since : Date) : Nat :=
  (s.applications.filter (fun a =>
      a.userId == uid && Date.leb since a.createdAt)).length

/-- Error taxonomy of the apply workflow, one constructor per early return
of applyToInternship; InternalError is the generic catch-all 500 response of
the surrounding try/catch. -/
inductive ApplyError
  | ValidationError
  | NotFound
  | Closed
  | CampaignInactive
  | DeadlinePassed
  | DuplicateApplication
  | SubscriptionRequired
  | QuotaExceeded (used : Nat) (cap : Nat)
  | InternalError
deriving DecidableEq

/-- Outcome of the apply workflow. -/
inductive ApplyOutcome
  | ok (app : Application)
  | err (e : ApplyError)
deriving DecidableEq

/-- Precondition chain of applyToInternship, in source order with early
return: cover-letter validation (the two ifs on coverLetter), internship
findUnique, isActive, campaign status, deadline, duplicate findUnique,
active subscription, monthly quota. Returns the first failure, none when
every check passes. The campaign and plan relations are required foreign
keys; a dangling one would make the original query throw, surfaced by the
catch block as the generic 500, hence InternalError. -/
def applyChecks (s : Store) (now : Date) (uid iid : Nat)
    (coverLetter : Option String) : Option ApplyError :=
  if jsTruthyStr coverLetter = false ∨
      (jsTrim (coverLetter.getD "")).length < 50 then
    some ApplyError.ValidationError
  else if 2000 < (coverLetter.getD "").length then
    some ApplyError.ValidationError
  else
    match findInternship s iid with
    | none => some ApplyError.NotFound
    | some i =>
      if i.isActive = false then
        some ApplyError.Closed
      else
        match findCampaign s i.campaignId with
        | none => some ApplyError.InternalError
        | some c =>
          if c.status ≠ CampaignStatus.ACTIVE then
            some ApplyError.CampaignInactive
          else if Date.ltb i.deadline now then
            some ApplyError.DeadlinePassed
          else
            match findApplication s iid uid with
            | some _ => some ApplyError.DuplicateApplication
            | none =>
              match latestActiveSubscription s uid now with
              | none => some ApplyError.SubscriptionRequired
              | some sub =>
                match findPlan s sub.planId with
                | none => some ApplyError.InternalError
                | some plan =>
                  match plan.maxApplicationsPerMonth with
                  | none => none
                  | some cap =>
                    if cap = 0 then
                      none
                    else
                      let used := countApplicationsSince s uid (startOfMonth now)
                      if cap ≤ used then
                        some (ApplyError.QuotaExceeded used cap)
                      else
                        none

/-- Store-level prisma.application.create: the unique constraint on
(internshipId, userId) rejects the insert when a row for the pair already
exists, otherwise the row is appended. -/
def createApplication (s : Store) (app : Application) : Except Unit Store :=
  if (findApplication s app.internshipId app.userId).isSome then
    Except.error ()
  else
    Except.ok { s with applications := s.applications ++ [app] }

/-- Row built by the create call of applyToInternship: trimmed cover letter,
status PENDING. -/
def newApplication (now : Date) (uid iid newId : Nat) (cl : String) :
    Application :=
  { id := newId, internshipId := iid, userId := uid,
    coverLetter := jsTrim cl, status := AppStatus.PENDING,
    createdAt := now, updatedAt := now }

/-- Whole apply handler: run the precondition chain, then create the
application. A create rejected by the unique constraint throws, and the
try/catch of the handler turns any thrown error into the generic 500
response, modelled as InternalError. -/
def applyToInternship (s : Store) (now : Date) (uid iid : Nat)
    (coverLetter : Option String) (newId : Nat) : ApplyOutcome × Store :=
  match applyChecks s now uid iid coverLetter with
  | some e => (ApplyOutcome.err e, s)
  | none =>
    let app := newApplication now uid iid newId (coverLetter.getD "")
    match createApplication s app with
    | Except.ok s1 => (ApplyOutcome.ok app, s1)
    | Except.error _ => (ApplyOutcome.err ApplyError.InternalError, s)

/-- Apply handler under a duplicate race: raced is a row committed by a
concurrent request after the findUnique duplicate check read its snapshot
and before the create runs, so the create sees the store extended with
raced. Everything else is as in applyToInternship. -/
def applyToInternshipRaced (s : Store) (now : Date) (uid iid : Nat)
    (coverLetter : Option String) (newId : Nat) (raced : Application) :
    ApplyOutcome × Store :=
  match applyChecks s now uid iid coverLetter with
  | some e => (ApplyOutcome.err e, s)
  | none =>
    let s1 : Store := { s with applications := s.applications ++ [raced] }
    let app := newApplication now uid iid newId (coverLetter.getD "")
    match createApplication s1 app with
    | Except.ok s2 => (ApplyOutcome.ok app, s2)
    | Except.error _ => (ApplyOutcome.err ApplyError.InternalError, s1)

/-- Parse of the status string of the company status-update body against the
validStatuses array. -/
def parseAppStatus (st : String) : Option AppStatus :=
  if st = "PENDING" then some AppStatus.PENDING
  else if st = "SHORTLISTED" then some AppStatus.SHORTLISTED
  else if st = "ACCEPTED" then some AppStatus.ACCEPTED
  else if st = "REJECTED" then some AppStatus.REJECTED
  else none

/-- Error taxonomy of updateApplicationStatus: invalid status string (400),
company not found (404), application not found or not owned (404), and the
rejected change away from ACCEPTED (400). -/
inductive UpdStatusError
  | ValidationError
  | CompanyNotFound
  | NotFound
  | InvalidTransition
deriving DecidableEq

/-- Model of the application findFirst of updateApplicationStatus: row with
the given id whose internship belongs to the given company. -/
def findCompanyApplication (s : Store) (appId companyId : Nat) :
    Option Application :=
  s.applications.find? (fun a =>
    a.id == appId &&
      (match findInternship s a.internshipId with
       | some i => i.companyId == companyId
       | none => false))

/-- Company status-update handler (POST of
src/app/api/company/campaigns/route.ts, second segment): validate the status
string, resolve the company of the caller, find the owned application,
reject a change away from ACCEPTED, otherwise overwrite status and stamp
updatedAt. -/
def updateApplicationStatus (s : Store) (now : Date) (uid appId : Nat)
    (status : Option String) : Except UpdStatusError Application × Store :=
  match status.bind parseAppStatus with
  | none => (Except.error UpdStatusError.ValidationError, s)
  | some st =>
    match findUserCompany s uid with
    | none => (Except.error UpdStatusError.CompanyNotFound, s)
    | some cid =>
      match findCompanyApplication s appId cid with
      | none => (Except.error UpdStatusError.NotFound, s)
      | some app =>
        if app.status = AppStatus.ACCEPTED ∧ st ≠ AppStatus.ACCEPTED then
          (Except.error UpdStatusError.InvalidTransition, s)
        else
          (Except.ok { app with status := st, updatedAt := now },
           { s with applications := s.applications.map (fun a =>
               if a.id == appId then { a with status := st, updatedAt := now }
               else a) })

/-- Base where-clause of the student listing getInternships: isActive,
deadline gte now, campaign status ACTIVE. -/
def studentListingWhere (s : Store) (now : Date) (i : Internship) : Bool :=
  i.isActive && Date.leb now i.deadline &&
    (match findCampaign s i.campaignId with
     | some c => decide (c.status = CampaignStatus.ACTIVE)
     | none => false)

/-- Student-facing internship listing with no optional filters: the rows
matched by the base where-clause. -/
def getInternshipsBase (s : Store) (now : Date) : List Internship :=
  s.internships.filter (studentListingWhere s now)

/-- Body of the campaign launch request. -/
structure LaunchRequest where
  title : Option String
  description : Option String
  budget : Option Int
  endDate : Option Date
  maxInternships : Option Nat
  paymentMethod : Option String
  transactionId : Option String
deriving DecidableEq

/-- Error taxonomy of launchCampaign: missing required fields (400) and
company not found (404). -/
inductive LaunchError
  | ValidationError
  | CompanyNotFound
deriving DecidableEq

/-- Campaign launch handler: validate required fields by truthiness, resolve
the company, then inside one transaction create the campaign with status
ACTIVE and its payment, the payment status COMPLETED when the transactionId
field is truthy and PENDING otherwise. The transaction commits both rows or,
on any error path, neither. -/
def launchCampaign (s : Store) (now : Date) (uid : Nat) (r : LaunchRequest)
    (newId : Nat) : Except LaunchError Campaign × Store :=
  if jsTruthyStr r.title = false ∨ jsTruthyInt r.budget = false ∨
      r.endDate = none ∨ jsTruthyNat r.maxInternships = false ∨
      jsTruthyStr r.paymentMethod = false then
    (Except.error LaunchError.ValidationError, s)
  else
    match findUserCompany s uid with
    | none => (Except.error LaunchError.CompanyNotFound, s)
    | some cid =>
      let c : Campaign :=
        { id := newId, companyId := cid, title := r.title.getD "",
          description := r.description, budget := r.budget.getD 0,
          status := CampaignStatus.ACTIVE, startDate := now,
          endDate := r.endDate.getD now,
          maxInternships := r.maxInternships.getD 0, createdAt := now }
      let p : CampaignPayment :=
        { campaignId := newId, amount := r.budget.getD 0,
          paymentMethod := r.paymentMethod.getD "",
          transactionId := r.transactionId,
          status := if jsTruthyStr r.transactionId then PayStatus.COMPLETED
                    else PayStatus.PENDING }
      (Except.ok c,
       { s with campaigns := s.campaigns ++ [c],
                campaignPayments := s.campaignPayments ++ [p] })

/-- Body of the campaign edit request; the description field distinguishes
absent (outer none) from explicit null (some none). -/
structure EditRequest where
  title : Option String
  description : Option (Option String)
  endDate : Option Date
  status : Option String
deriving DecidableEq

/-- Error taxonomy of editCampaign. -/
inductive EditError
  | CompanyNotFound
  | NotFound
deriving DecidableEq

/-- Parse of the edit status string against the array of settable statuses
ACTIVE, PAUSED, COMPLETED; EXPIRED and every other string fail the includes
test. -/
def parseEditStatus (st : String) : Option CampaignStatus :=
  if st = "ACTIVE" then some CampaignStatus.ACTIVE
  else if st = "PAUSED" then some CampaignStatus.PAUSED
  else if st = "COMPLETED" then some CampaignStatus.COMPLETED
  else none

/-- Field updates of editCampaign applied to one campaign row: title when
truthy, description when not undefined, endDate when truthy, status when it
passes the includes test. -/
def applyEdit (r : EditRequest) (c : Campaign) : Campaign :=
  let c1 := if jsTruthyStr r.title then { c with title := r.title.getD "" }
            else c
  let c2 := match r.description with
            | some d => { c1 with description := d }
            | none => c1
  let c3 := match r.endDate with
            | some e => { c2 with endDate := e }
            | none => c2
  match r.status with
  | some st =>
    if jsTruthyStr (some st) then
      match parseEditStatus st with
      | some cs => { c3 with status := cs }
      | none => c3
    else c3
  | none => c3

/-- Campaign edit handler (PUT of src/unnamed/part_002): resolve the company
of the caller, check the campaign exists and is owned, then update the row
by id with the provided fields. -/
def editCampaign (s : Store) (uid cid : Nat) (r : EditRequest) :
    Except EditError Campaign × Store :=
  match findUserCompany s uid with
  | none => (Except.error EditError.CompanyNotFound, s)
  | some companyId =>
    match s.campaigns.find? (fun c => c.id == cid && c.companyId == companyId) with
    | none => (Except.error EditError.NotFound, s)
    | some c0 =>
      (Except.ok (applyEdit r c0),
       { s with campaigns := s.campaigns.map (fun c =>
           if c.id == cid then applyEdit r c else c) })

/-- Error taxonomy of the student cover-letter edit: too-short letter (400),
application not found or not owned (404), status not PENDING (403). -/
inductive StudentUpdError
  | ValidationError
  | NotFound
  | Forbidden
deriving DecidableEq

/-- Student cover-letter edit handler (PUT of
src/app/api/student/applications/[applicationId]/route.ts): the only
validation is truthiness plus a 50-character minimum on the trimmed letter;
then ownership, then the PENDING-only guard, then the update stores the
trimmed letter. -/
def updateApplication (s : Store) (uid appId : Nat)
    (coverLetter : Option String) : Except StudentUpdError Application × Store :=
  if jsTruthyStr coverLetter = false ∨
      (jsTrim (coverLetter.getD "")).length < 50 then
    (Except.error StudentUpdError.ValidationError, s)
  else
    match s.applications.find? (fun a => a.id == appId && a.userId == uid) with
    | none => (Except.error StudentUpdError.NotFound, s)
    | some app =>
      if app.status ≠ AppStatus.PENDING then
        (Except.error StudentUpdError.Forbidden, s)
      else
        (Except.ok { app with coverLetter := jsTrim (coverLetter.getD "") },
         { s with applications := s.applications.map (fun a =>
             if a.id == appId then
               { a with coverLetter := jsTrim (coverLetter.getD "") }
             else a) })

/-- Modelled from the words of the C6 spec sentence: the cover letter is
acceptable when its trimmed length lies in the closed interval from 50 to
2000 characters. Compared against the embedded validation of the source. -/
def specCoverLetterOk (cl : String) : Bool :=
  decide (50 ≤ (jsTrim cl).length) && decide ((jsTrim cl).length ≤ 2000)

/-- Concrete letter of 60 characters, trim-stable. -/
def goodLetter : String := String.mk (List.replicate 60 'a')

/-- Concrete letter of exactly 50 characters. -/
def exact50Letter : String := String.mk (List.replicate 50 'a')

/-- Concrete letter of 40 characters. -/
def shortLetter : String := String.mk (List.replicate 40 'a')

/-- Concrete letter of 2001 non-space characters. -/
def hugeLetter : String := String.mk (List.replicate 2001 'a')

/-- Concrete letter of raw length 2001 whose trimmed length is 50. -/
def padLetter : String :=
  String.mk (List.replicate 50 'a' ++ List.replicate 1951 ' ')

/-- Concrete date in the past of the demo scenario. -/
def dPast : Date := { year := 2025, month := 1, day := 10, ms := 0 }

/-- Concrete date of this month before the demo now. -/
def dMonth : Date := { year := 2025, month := 6, day := 2, ms := 0 }

/-- Concrete current instant of the demo scenario. -/
def dNow : Date := { year := 2025, month := 6, day := 15, ms := 500 }

/-- Concrete future date of the demo scenario. -/
def dFuture : Date := { year := 2025, month := 12, day := 31, ms := 0 }

/-- Demo student user without a company. -/
def userStudent : User := { id := 1, companyId := none }

/-- Demo company user owning company 1. -/
def userCompany : User := { id := 7, companyId := some 1 }

/-- Demo campaign with status ACTIVE. -/
def campActive : Campaign :=
  { id := 5, companyId := 1, title := "camp", description := none,
    budget := 100, status := CampaignStatus.ACTIVE, startDate := dPast,
    endDate := dFuture, maxInternships := 3, createdAt := dPast }

/-- Demo campaign with status PAUSED. -/
def campPaused : Campaign :=
  { id := 6, companyId := 1, title := "camp2", description := none,
    budget := 100, status := CampaignStatus.PAUSED, startDate := dPast,
    endDate := dFuture, maxInternships := 3, createdAt := dPast }

/-- Demo internship under the ACTIVE campaign. -/
def internOpen : Internship :=
  { id := 10, companyId := 1, campaignId := 5, isActive := true,
    deadline := dFuture }

/-- Demo internship under the PAUSED campaign, itself active. -/
def internPaused : Internship :=
  { id := 11, companyId := 1, campaignId := 6, isActive := true,
    deadline := dFuture }

/-- Demo application of another student, already ACCEPTED. -/
def appAccepted : Application :=
  { id := 20, internshipId := 10, userId := 2, coverLetter := "x",
    status := AppStatus.ACCEPTED, createdAt := dPast, updatedAt := dPast }

/-- Demo PENDING application of the demo student. -/
def appPending : Application :=
  { id := 21, internshipId := 11, userId := 1, coverLetter := "y",
    status := AppStatus.PENDING, createdAt := dPast, updatedAt := dPast }

/-- Demo plan with a monthly cap of 5. -/
def planCapped : StudentPlan :=
  { id := 30, name := "basic", maxApplicationsPerMonth := some 5 }

/-- Demo active subscription of the demo student. -/
def subActiveRow : Subscription :=
  { userId := 1, planId := 30, status := SubStatus.ACTIVE,
    endsAt := dFuture, createdAt := dPast }

/-- Demo store used by the witnesses. -/
def demoStore : Store :=
  { users := [userStudent, userCompany],
    campaigns := [campActive, campPaused],
    campaignPayments := [],
    internships := [internOpen, internPaused],
    applications := [appAccepted, appPending],
    subscriptions := [subActiveRow],
    plans := [planCapped] }

/-- Plan with a monthly cap of 1 for the quota witness. -/
def planTight : StudentPlan :=
  { id := 31, name := "tight", maxApplicationsPerMonth := some 1 }

/-- Subscription of the demo student to the tight plan. -/
def subTight : Subscription :=
  { userId := 1, planId := 31, status := SubStatus.ACTIVE,
    endsAt := dFuture, createdAt := dPast }

/-- Application of the demo student created this month. -/
def appThisMonth : Application :=
  { id := 22, internshipId := 11, userId := 1, coverLetter := "y",
    status := AppStatus.PENDING, createdAt := dMonth, updatedAt := dMonth }

/-- Store where the demo student has used up a cap of 1 this month. -/
def quotaStore : Store :=
  { users := [userStudent],
    campaigns := [campActive],
    campaignPayments := [],
    internships := [internOpen],
    applications := [appThisMonth],
    subscriptions := [subTight],
    plans := [planTight] }

/-- Plan whose monthly cap is the number zero (non-null). -/
def planZero : StudentPlan :=
  { id := 32, name := "zero", maxApplicationsPerMonth := some 0 }

/-- Subscription of the demo student to the zero-cap plan. -/
def subZero : Subscription :=
  { userId := 1, planId := 32, status := SubStatus.ACTIVE,
    endsAt := dFuture, createdAt := dPast }

/-- Store where the authoritative plan carries a cap of zero. -/
def zeroCapStore : Store :=
  { users := [userStudent],
    campaigns := [campActive],
    campaignPayments := [],
    internships := [internOpen],
    applications := [],
    subscriptions := [subZero],
    plans := [planZero] }

/-- Row committed by a concurrent apply between the duplicate check and the
create of the demo request. -/
def racedApp : Application :=
  { id := 90, internshipId := 10, userId := 1, coverLetter := "z",
    status := AppStatus.PENDING, createdAt := dNow, updatedAt := dNow }

/-- Launch request with no transactionId. -/
def reqNoTx : LaunchRequest :=
  { title := some "t", description := some "d", budget := some 100,
    endDate := some dFuture, maxInternships := some 2,
    paymentMethod := some "card", transactionId := none }

/-- Launch request with a non-empty transactionId. -/
def reqTx : LaunchRequest :=
  { reqNoTx with transactionId := some "tx123" }

/-- Launch request that supplies an empty-string transactionId. -/
def reqEmptyTx : LaunchRequest :=
  { reqNoTx with transactionId := some "" }

/-- Edit request that carries status EXPIRED. -/
def reqEditExpired : EditRequest :=
  { title := some "renamed", description := none, endDate := none,
    status := some "EXPIRED" }

theorem dropWhile_replicate_append (p : Char → Bool) (c : Char) (h : p c = true)
    (n : Nat) (l : List Char) :
    List.dropWhile p (List.replicate n c ++ l) = List.dropWhile p l := by
  induction n with
  | zero => simp
  | succ k ih => simp [List.replicate_succ, List.dropWhile_cons, h, ih]

theorem jsTrim_a_then_spaces (n m : Nat) :
    jsTrim (String.mk (List.replicate (n + 1) 'a' ++ List.replicate m ' ')) =
      String.mk (List.replicate (n + 1) 'a') := by
  unfold jsTrim
  have ha : Char.isWhitespace 'a' = false := by decide
  have hs : Char.isWhitespace ' ' = true := by decide
  simp only [List.replicate_succ, List.cons_append, List.dropWhile_cons, ha,
    Bool.false_eq_true, if_false, List.reverse_append, List.reverse_cons,
    List.reverse_replicate]
  rw [List.append_assoc, dropWhile_replicate_append Char.isWhitespace ' ' hs]
  cases n with
  | zero => decide
  | succ k =>
    rw [List.replicate_succ, List.cons_append,
      List.dropWhile_cons_of_neg (by simp [ha])]
    rw [← List.replicate_succ', ← List.replicate_succ, List.reverse_replicate,
      List.replicate_succ, List.replicate_succ]

theorem hugeLetter_trim : jsTrim hugeLetter = hugeLetter := by
  have h := jsTrim_a_then_spaces 2000 0
  rw [List.replicate_zero, List.append_nil,
    show (2000 + 1 : Nat) = 2001 from rfl] at h
  rw [hugeLetter]
  exact h

theorem hugeLetter_len : hugeLetter.length = 2001 := by
  rw [hugeLetter, String.length_mk, List.length_replicate]

theorem padLetter_trim :
    jsTrim padLetter = String.mk (List.replicate 50 'a') := by
  have h := jsTrim_a_then_spaces 49 1951
  rw [show (49 + 1 : Nat) = 50 from rfl] at h
  rw [padLetter]
  exact h

theorem padLetter_len : padLetter.length = 2001 := by
  rw [padLetter, String.length_mk, List.length_append, List.length_replicate,
    List.length_replicate]

theorem padLetter_trim_len : (jsTrim padLetter).length = 50 := by
  rw [padLetter_trim, String.length_mk, List.length_replicate]

theorem hugeLetter_trim_len : (jsTrim hugeLetter).length = 2001 := by
  rw [hugeLetter_trim, hugeLetter_len]

theorem hugeLetter_ne_empty : hugeLetter ≠ "" := by
  intro h
  have h2 : hugeLetter.length = 0 := by rw [h]; rfl
  rw [hugeLetter_len] at h2
  exact absurd h2 (by decide)

theorem padLetter_ne_empty : padLetter ≠ "" := by
  intro h
  have h2 : padLetter.length = 0 := by rw [h]; rfl
  rw [padLetter_len] at h2
  exact absurd h2 (by decide)

/-- C2: for every application whose status is ACCEPTED, a company
status-update call with target PENDING, SHORTLISTED or REJECTED fails with
InvalidTransition and leaves the store unchanged. -/
theorem C2_accepted_immutable (s : Store) (now : Date) (uid appId cid : Nat)
    (st : String) (app : Application) (target : AppStatus)
    (hu : findUserCompany s uid = some cid)
    (hf : findCompanyApplication s appId cid = some app)
    (hacc : app.status = AppStatus.ACCEPTED)
    (hparse : parseAppStatus st = some target)
    (hne : target ≠ AppStatus.ACCEPTED) :
    updateApplicationStatus s now uid appId (some st) =
      (Except.error UpdStatusError.InvalidTransition, s) := by
  unfold updateApplicationStatus
  simp only [Option.some_bind, hparse, hu, hf]
  rw [if_pos ⟨hacc, hne⟩]

/-- Closed instance of C2: the demo ACCEPTED application rejects target
REJECTED. -/
theorem C2_accepted_immutable_witness :
    updateApplicationStatus demoStore dNow 7 20 (some "REJECTED") =
      (Except.error UpdStatusError.InvalidTransition, demoStore) :=
  C2_accepted_immutable demoStore dNow 7 20 1 "REJECTED" appAccepted
    AppStatus.REJECTED (by decide) (by decide) (by decide) (by decide)
    (by decide)

/-- C9: a status-update whose target is ACCEPTED, applied to an application
already ACCEPTED, succeeds: the status is overwritten with ACCEPTED and
updatedAt is re-stamped. -/
theorem C9_accepted_self_update (s : Store) (now : Date) (uid appId cid : Nat)
    (app : Application)
    (hu : findUserCompany s uid = some cid)
    (hf : findCompanyApplication s appId cid = some app)
    (hacc : app.status = AppStatus.ACCEPTED) :
    updateApplicationStatus s now uid appId (some "ACCEPTED") =
      (Except.ok { app with status := AppStatus.ACCEPTED, updatedAt := now },
       { s with applications := s.applications.map (fun a =>
           if a.id == appId then
             { a with status := AppStatus.ACCEPTED, updatedAt := now }
           else a) }) := by
  unfold updateApplicationStatus
  have hp : parseAppStatus "ACCEPTED" = some AppStatus.ACCEPTED := by decide
  simp only [Option.some_bind, hp, hu, hf]
  rw [if_neg (by intro h; exact h.2 rfl)]

/-- Closed instance of C9 on the demo store. -/
theorem C9_accepted_self_update_witness :
    updateApplicationStatus demoStore dNow 7 20 (some "ACCEPTED") =
      (Except.ok
        { appAccepted with status := AppStatus.ACCEPTED, updatedAt := dNow },
       { demoStore with applications := demoStore.applications.map (fun a =>
           if a.id == 20 then
             { a with status := AppStatus.ACCEPTED, updatedAt := dNow }
           else a) }) :=
  C9_accepted_self_update demoStore dNow 7 20 1 appAccepted (by decide)
    (by decide) (by decide)

/-- C3: an internship appears in the student listing iff it is stored,
isActive, its deadline is at or after now and its campaign has status
ACTIVE; an internship whose campaign is PAUSED or COMPLETED never appears,
even when isActive is true. -/
theorem C3_listing_visibility :
    (∀ (s : Store) (now : Date) (i : Internship),
        i ∈ getInternshipsBase s now ↔
          i ∈ s.internships ∧ i.isActive = true ∧
            Date.leb now i.deadline = true ∧
            ∃ c, findCampaign s i.campaignId = some c ∧
              c.status = CampaignStatus.ACTIVE) ∧
    (∀ (s : Store) (now : Date) (i : Internship) (c : Campaign),
        findCampaign s i.campaignId = some c →
        (c.status = CampaignStatus.PAUSED ∨
          c.status = CampaignStatus.COMPLETED) →
        i ∉ getInternshipsBase s now) := by
  have base : ∀ (s : Store) (now : Date) (i : Internship),
      i ∈ getInternshipsBase s now ↔
        i ∈ s.internships ∧ i.isActive = true ∧
          Date.leb now i.deadline = true ∧
          ∃ c, findCampaign s i.campaignId = some c ∧
            c.status = CampaignStatus.ACTIVE := by
    intro s now i
    rw [getInternshipsBase, List.mem_filter]
    unfold studentListingWhere
    cases h : findCampaign s i.campaignId with
    | none => simp [h]
    | some c => simp [h, and_assoc]
  refine ⟨base, ?_⟩
  intro s now i c hc hstat hmem
  rcases (base s now i).mp hmem with ⟨-, -, -, c2, hc2, hact⟩
  rw [hc] at hc2
  cases hc2
  cases hstat with
  | inl h => rw [h] at hact; exact absurd hact (by decide)
  | inr h => rw [h] at hact; exact absurd hact (by decide)

/-- Closed instance of C3: the internship under the PAUSED demo campaign is
not listed although isActive is true, while the one under the ACTIVE
campaign is listed. -/
theorem C3_listing_visibility_witness :
    internPaused ∉ getInternshipsBase demoStore dNow ∧
    internOpen ∈ getInternshipsBase demoStore dNow :=
  ⟨C3_listing_visibility.2 demoStore dNow internPaused campPaused (by decide)
      (Or.inl (by decide)),
   (C3_listing_visibility.1 demoStore dNow internOpen).mpr
     ⟨by decide, by decide, by decide, campActive, by decide, by decide⟩⟩

/-- C10: the student cover-letter edit enforces only the 50-character
minimum on the trimmed letter; for a PENDING application owned by the
caller, any truthy letter whose trimmed length is at least 50 is accepted
and the trimmed text stored, with no upper bound. -/
theorem C10_student_edit_no_upper_bound (s : Store) (uid appId : Nat)
    (cl : String) (app : Application)
    (hne : cl ≠ "")
    (hlen : 50 ≤ (jsTrim cl).length)
    (hfind : s.applications.find? (fun a => a.id == appId && a.userId == uid)
      = some app)
    (hstat : app.status = AppStatus.PENDING) :
    updateApplication s uid appId (some cl) =
      (Except.ok { app with coverLetter := jsTrim cl },
       { s with applications := s.applications.map (fun a =>
           if a.id == appId then { a with coverLetter := jsTrim cl }
           else a) }) := by
  unfold updateApplication
  rw [if_neg (by
    simp only [jsTruthyStr, hne, not_or]
    constructor
    · simp [hne]
    · exact Nat.not_lt.mpr hlen)]
  simp only [Option.getD_some, hfind]
  rw [if_neg (by rw [hstat]; simp)]

/-- Closed instance of C10: a 2001-character letter is accepted by the edit
and stored trimmed. -/
theorem C10_student_edit_no_upper_bound_witness :
    2000 < hugeLetter.length ∧
    updateApplication demoStore 1 21 (some hugeLetter) =
      (Except.ok { appPending with coverLetter := jsTrim hugeLetter },
       { demoStore with applications := demoStore.applications.map (fun a =>
           if a.id == 21 then { a with coverLetter := jsTrim hugeLetter }
           else a) }) :=
  ⟨by rw [hugeLetter_len]; decide,
   C10_student_edit_no_upper_bound demoStore 1 21 hugeLetter appPending
     hugeLetter_ne_empty (by rw [hugeLetter_trim_len]; decide) (by decide)
     (by decide)⟩

theorem parseEditStatus_cases (st : String) (cs : CampaignStatus)
    (h : parseEditStatus st = some cs) :
    cs = CampaignStatus.ACTIVE ∨ cs = CampaignStatus.PAUSED ∨
      cs = CampaignStatus.COMPLETED := by
  unfold parseEditStatus at h
  split at h
  · exact Or.inl (Option.some.inj h).symm
  · split at h
    · exact Or.inr (Or.inl (Option.some.inj h).symm)
    · split at h
      · exact Or.inr (Or.inr (Option.some.inj h).symm)
      · exact absurd h (by simp)

/-- C8: the campaign edit touches only title, description, endDate and
status; all other campaign fields, the other rows and the other tables are
unchanged, an edit never sets a status outside ACTIVE, PAUSED, COMPLETED,
and a request carrying status EXPIRED leaves the stored status unchanged. -/
theorem C8_edit_frame (s : Store) (uid cid : Nat) (r : EditRequest) :
    ((editCampaign s uid cid r).2.users = s.users ∧
     (editCampaign s uid cid r).2.campaignPayments = s.campaignPayments ∧
     (editCampaign s uid cid r).2.internships = s.internships ∧
     (editCampaign s uid cid r).2.applications = s.applications ∧
     (editCampaign s uid cid r).2.subscriptions = s.subscriptions ∧
     (editCampaign s uid cid r).2.plans = s.plans) ∧
    ((editCampaign s uid cid r).2.campaigns = s.campaigns ∨
     (editCampaign s uid cid r).2.campaigns =
       s.campaigns.map (fun c => if c.id == cid then applyEdit r c else c)) ∧
    (∀ c, (applyEdit r c).id = c.id ∧ (applyEdit r c).companyId = c.companyId ∧
      (applyEdit r c).budget = c.budget ∧
      (applyEdit r c).maxInternships = c.maxInternships ∧
      (applyEdit r c).startDate = c.startDate ∧
      (applyEdit r c).createdAt = c.createdAt) ∧
    (∀ c, (applyEdit r c).status = c.status ∨
      (applyEdit r c).status = CampaignStatus.ACTIVE ∨
      (applyEdit r c).status = CampaignStatus.PAUSED ∨
      (applyEdit r c).status = CampaignStatus.COMPLETED) ∧
    (r.status = some "EXPIRED" → ∀ c, (applyEdit r c).status = c.status) := by
  refine ⟨?_, ?_, ?_, ?_, ?_⟩
  · unfold editCampaign
    repeat' split
    all_goals simp
  · unfold editCampaign
    repeat' split
    all_goals simp
  · intro c
    unfold applyEdit
    repeat' split
    all_goals simp
  · intro c
    unfold applyEdit
    repeat' split
    all_goals try (left; rfl)
    all_goals
      (rename_i cs heq
       rcases parseEditStatus_cases _ cs heq with h | h | h
       · right; left; simp [h]
       · right; right; left; simp [h]
       · right; right; right; simp [h])
  · intro hexp c
    unfold applyEdit
    rw [hexp]
    have h1 : parseEditStatus "EXPIRED" = none := by decide
    simp only [h1]
    repeat' split
    all_goals simp

/-- Closed instance of C8: a request carrying status EXPIRED leaves the
stored status of the demo campaign unchanged, and the edit does not touch
the applications table. -/
theorem C8_edit_frame_witness :
    (applyEdit reqEditExpired campActive).status = campActive.status ∧
    (editCampaign demoStore 7 5 reqEditExpired).2.applications =
      demoStore.applications :=
  ⟨(C8_edit_frame demoStore 7 5 reqEditExpired).2.2.2.2 rfl campActive,
   (C8_edit_frame demoStore 7 5 reqEditExpired).1.2.2.2.1⟩

/-- C5 (amended): launch is all-or-nothing: every error path leaves the
store unchanged, and on success exactly one campaign with status ACTIVE and
exactly one payment for it are appended together, the payment status
COMPLETED exactly when the request carries a truthy (non-empty)
transactionId and PENDING otherwise. -/
theorem C5_launch_atomic (s : Store) (now : Date) (uid : Nat)
    (r : LaunchRequest) (newId : Nat) :
    (∀ e, (launchCampaign s now uid r newId).1 = Except.error e →
      (launchCampaign s now uid r newId).2 = s) ∧
    (∀ c, (launchCampaign s now uid r newId).1 = Except.ok c →
      c.status = CampaignStatus.ACTIVE ∧
      (launchCampaign s now uid r newId).2.campaigns = s.campaigns ++ [c] ∧
      ∃ p, (launchCampaign s now uid r newId).2.campaignPayments =
          s.campaignPayments ++ [p] ∧
        p.campaignId = c.id ∧
        (p.status = PayStatus.COMPLETED ↔ jsTruthyStr r.transactionId = true) ∧
        (p.status = PayStatus.PENDING ↔ jsTruthyStr r.transactionId = false)) := by
  unfold launchCampaign
  split
  · exact ⟨fun e _ => rfl, fun c h => by simp at h⟩
  · cases h : findUserCompany s uid with
    | none => exact ⟨fun e _ => rfl, fun c hc => by simp [h] at hc⟩
    | some cid =>
      refine ⟨fun e he => by simp [h] at he, fun c hc => ?_⟩
      simp only [h] at hc ⊢
      cases hc
      refine ⟨rfl, rfl, ?_⟩
      refine ⟨_, rfl, rfl, ?_, ?_⟩
      · cases htx : jsTruthyStr r.transactionId <;> simp [htx]
      · cases htx : jsTruthyStr r.transactionId <;> simp [htx]

/-- Closed instance of C5: launching with no transactionId appends the
campaign and a PENDING payment. -/
theorem C5_launch_atomic_witness :
    (launchCampaign demoStore dNow 7 reqNoTx 80).2.campaigns =
      demoStore.campaigns ++
        [{ id := 80, companyId := 1, title := "t", description := some "d",
           budget := 100, status := CampaignStatus.ACTIVE, startDate := dNow,
           endDate := dFuture, maxInternships := 2, createdAt := dNow }] ∧
    (launchCampaign demoStore dNow 7 reqNoTx 80).2.campaignPayments.map
      (fun p => p.status) = [PayStatus.PENDING] := by
  refine ⟨((C5_launch_atomic demoStore dNow 7 reqNoTx 80).2
    { id := 80, companyId := 1, title := "t", description := some "d",
      budget := 100, status := CampaignStatus.ACTIVE, startDate := dNow,
      endDate := dFuture, maxInternships := 2, createdAt := dNow }
    (by rfl)).2.1, by decide⟩

/-- Counterexample to C5 as stated: the launch request reqEmptyTx supplies a
transactionId (the field is present), yet the created payment has status
PENDING, not COMPLETED. -/
theorem C5_counterexample :
    reqEmptyTx.transactionId.isSome = true ∧
    (launchCampaign demoStore dNow 7 reqEmptyTx 80).2.campaignPayments.map
      (fun p => (p.transactionId, p.status)) =
      [(some "", PayStatus.PENDING)] := by
  exact ⟨by decide, by decide⟩

theorem applyChecks_validation_iff (s : Store) (now : Date) (uid iid : Nat)
    (cl? : Option String) :
    applyChecks s now uid iid cl? = some ApplyError.ValidationError ↔
      ¬ (jsTruthyStr cl? = true ∧ 50 ≤ (jsTrim (cl?.getD "")).length ∧
          (cl?.getD "").length ≤ 2000) := by
  unfold applyChecks
  by_cases h1 : jsTruthyStr cl? = false ∨ (jsTrim (cl?.getD "")).length < 50
  · rw [if_pos h1]
    constructor
    · rintro - ⟨ht, hlen, -⟩
      rcases h1 with h | h
      · rw [ht] at h; cases h
      · omega
    · intro _; rfl
  · rw [if_neg h1]
    push_neg at h1
    have ht : jsTruthyStr cl? = true := by
      cases hjt : jsTruthyStr cl?
      · exact absurd hjt h1.1
      · rfl
    have hlen : 50 ≤ (jsTrim (cl?.getD "")).length := h1.2
    by_cases h2 : 2000 < (cl?.getD "").length
    · rw [if_pos h2]
      constructor
      · rintro - ⟨-, -, hle⟩; omega
      · intro _; rfl
    · rw [if_neg h2]
      have htriple : jsTruthyStr cl? = true ∧
          50 ≤ (jsTrim (cl?.getD "")).length ∧
          (cl?.getD "").length ≤ 2000 := ⟨ht, hlen, Nat.not_lt.mp h2⟩
      constructor
      · intro hbad
        exfalso
        repeat' split at hbad
        all_goals simp_all
      · intro hcon
        exact absurd htriple hcon

/-- C6 (amended): the apply validation rejects with ValidationError exactly
when the cover letter is not truthy, its trimmed length is below 50, or its
raw (untrimmed) length exceeds 2000; the upper bound is checked on the raw
length, not the trimmed one. A rejected request leaves the store
unchanged. -/
theorem C6_cover_letter_bounds (s : Store) (now : Date) (uid iid newId : Nat)
    (cl? : Option String) :
    (applyChecks s now uid iid cl? = some ApplyError.ValidationError ↔
      ¬ (jsTruthyStr cl? = true ∧ 50 ≤ (jsTrim (cl?.getD "")).length ∧
          (cl?.getD "").length ≤ 2000)) ∧
    (applyChecks s now uid iid cl? = some ApplyError.ValidationError →
      (applyToInternship s now uid iid cl? newId).2 = s) := by
  refine ⟨applyChecks_validation_iff s now uid iid cl?, ?_⟩
  intro h
  unfold applyToInternship
  rw [h]

/-- Closed instance of C6: a 40-character letter is rejected and creates
nothing; a letter of exactly 50 characters passes every precondition. -/
theorem C6_cover_letter_bounds_witness :
    (applyToInternship demoStore dNow 1 10 (some shortLetter) 99).2 =
      demoStore ∧
    applyChecks demoStore dNow 1 10 (some shortLetter) =
      some ApplyError.ValidationError ∧
    applyChecks demoStore dNow 1 10 (some exact50Letter) = none :=
  ⟨(C6_cover_letter_bounds demoStore dNow 1 10 99 (some shortLetter)).2
      (by decide),
   by decide, by decide⟩

/-- Counterexample to C6 as stated: padLetter trims to exactly 50
characters, so its trimmed length lies in the interval from 50 to 2000 and
the claim says it is accepted, yet the code rejects it with ValidationError
because its raw length 2001 exceeds 2000; in the same context a 50-character
letter passes every precondition. -/
theorem C6_counterexample :
    specCoverLetterOk padLetter = true ∧
    applyChecks demoStore dNow 1 10 (some padLetter) =
      some ApplyError.ValidationError ∧
    applyChecks demoStore dNow 1 10 (some exact50Letter) = none := by
  refine ⟨?_, ?_, by decide⟩
  · unfold specCoverLetterOk
    rw [padLetter_trim_len]
    decide
  · unfold applyChecks
    have hneg : ¬ (jsTruthyStr (some padLetter) = false ∨
        (jsTrim ((some padLetter).getD "")).length < 50) := by
      simp only [Option.getD_some]
      rintro (h | h)
      · simp [jsTruthyStr, padLetter_ne_empty] at h
      · rw [padLetter_trim_len] at h; omega
    have hpos : 2000 < ((some padLetter).getD "").length := by
      simp only [Option.getD_some]
      rw [padLetter_len]
      omega
    rw [if_neg hneg, if_pos hpos]

/-- C4 (amended): when every earlier precondition passes and the
authoritative subscription references a plan whose cap is non-null and
non-zero, the quota check fails with QuotaExceeded reporting the monthly
usage and the cap when usage has reached the cap, and passes otherwise. A
cap of zero is falsy in the source and skips the check entirely. -/
theorem C4_monthly_quota (s : Store) (now : Date) (uid iid : Nat)
    (cl? : Option String) (i : Internship) (c : Campaign)
    (sub : Subscription) (plan : StudentPlan) (cap : Nat)
    (hcl1 : jsTruthyStr cl? = true)
    (hcl2 : 50 ≤ (jsTrim (cl?.getD "")).length)
    (hcl3 : (cl?.getD "").length ≤ 2000)
    (hi : findInternship s iid = some i)
    (hact : i.isActive = true)
    (hc : findCampaign s i.campaignId = some c)
    (hcs : c.status = CampaignStatus.ACTIVE)
    (hdl : Date.ltb i.deadline now = false)
    (hdup : findApplication s iid uid = none)
    (hsub : latestActiveSubscription s uid now = some sub)
    (hplan : findPlan s sub.planId = some plan)
    (hcap : plan.maxApplicationsPerMonth = some cap)
    (hcap0 : cap ≠ 0) :
    (cap ≤ countApplicationsSince s uid (startOfMonth now) →
      applyChecks s now uid iid cl? =
        some (ApplyError.QuotaExceeded
          (countApplicationsSince s uid (startOfMonth now)) cap)) ∧
    (countApplicationsSince s uid (startOfMonth now) < cap →
      applyChecks s now uid iid cl? = none) := by
  have hval : ¬ (jsTruthyStr cl? = false ∨
      (jsTrim (cl?.getD "")).length < 50) := by
    rw [hcl1]
    rintro (h | h)
    · cases h
    · omega
  unfold applyChecks
  rw [if_neg hval, if_neg (Nat.not_lt.mpr hcl3)]
  simp only [hi, hc, hdup, hsub, hplan, hcap]
  rw [if_neg (by simp [hact]), if_neg (by simp [hcs]), if_neg (by simp [hdl]),
    if_neg hcap0]
  constructor
  · intro h
    rw [if_pos h]
  · intro h
    rw [if_neg (by omega)]

/-- Closed instance of C4: with a cap of 1 and one application already
created this month, apply fails with QuotaExceeded reporting usage 1 and
cap 1. -/
theorem C4_monthly_quota_witness :
    applyChecks quotaStore dNow 1 10 (some goodLetter) =
      some (ApplyError.QuotaExceeded 1 1) := by
  have h := (C4_monthly_quota quotaStore dNow 1 10 (some goodLetter)
    internOpen campActive subTight planTight 1
    (by decide) (by decide) (by decide) (by decide) (by decide) (by decide)
    (by decide) (by decide) (by decide) (by decide) (by decide) (by decide)
    (by decide)).1 (by decide)
  have hcnt : countApplicationsSince quotaStore 1 (startOfMonth dNow) = 1 := by
    decide
  rw [hcnt] at h
  exact h

/-- Counterexample to C4 as stated: the authoritative subscription of the
zero-cap store references a plan whose maxApplicationsPerMonth is the
non-null value 0, the monthly usage 0 is at the cap, so the claim says apply
fails with QuotaExceeded; the code skips the falsy cap, the quota check
passes and the application is created. -/
theorem C4_counterexample :
    latestActiveSubscription zeroCapStore 1 dNow = some subZero ∧
    findPlan zeroCapStore subZero.planId = some planZero ∧
    planZero.maxApplicationsPerMonth = some 0 ∧
    countApplicationsSince zeroCapStore 1 (startOfMonth dNow) = 0 ∧
    applyChecks zeroCapStore dNow 1 10 (some goodLetter) = none ∧
    (applyToInternship zeroCapStore dNow 1 10 (some goodLetter) 99).1 =
      ApplyOutcome.ok (newApplication dNow 1 10 99 goodLetter) := by
  decide

/-- C7: on the demo store, a row for the pair committed between the
duplicate check and the create makes the create hit the unique constraint;
the handler reports the generic InternalError (500), not
DuplicateApplication, and exactly one row for the pair exists afterwards. -/
theorem C7_race_internal_error :
    (applyToInternshipRaced demoStore dNow 1 10 (some goodLetter) 99
        racedApp).1 = ApplyOutcome.err ApplyError.InternalError ∧
    (applyToInternshipRaced demoStore dNow 1 10 (some goodLetter) 99
        racedApp).1 ≠ ApplyOutcome.err ApplyError.DuplicateApplication ∧
    ((applyToInternshipRaced demoStore dNow 1 10 (some goodLetter) 99
        racedApp).2.applications.filter
      (fun a => a.internshipId == 10 && a.userId == 1)).length = 1 := by
  decide

theorem applyChecks_none_no_dup (s : Store) (now : Date) (uid iid : Nat)
    (cl? : Option String) :
    applyChecks s now uid iid cl? = none →
      findApplication s iid uid = none := by
  intro h
  unfold applyChecks at h
  repeat' split at h
  all_goals simp_all

/-- C1: the apply preconditions are evaluated in the order of the spec with
short-circuit on the first failure (cover letter, existence, isActive,
campaign ACTIVE, deadline, duplicate, subscription, quota); on success
exactly one Application with status PENDING is appended, failures leave the
store unchanged, and no other embedded operation adds an Application row. -/
theorem C1_apply_order_and_sole_creation (s : Store) (now : Date)
    (uid iid newId : Nat) (cl? : Option String) :
    ((jsTruthyStr cl? = false ∨ (jsTrim (cl?.getD "")).length < 50 ∨
        2000 < (cl?.getD "").length) →
      applyChecks s now uid iid cl? = some ApplyError.ValidationError) ∧
    (jsTruthyStr cl? = true → 50 ≤ (jsTrim (cl?.getD "")).length →
      (cl?.getD "").length ≤ 2000 →
      (findInternship s iid = none →
        applyChecks s now uid iid cl? = some ApplyError.NotFound) ∧
      (∀ i, findInternship s iid = some i →
        (i.isActive = false →
          applyChecks s now uid iid cl? = some ApplyError.Closed) ∧
        (i.isActive = true → ∀ c, findCampaign s i.campaignId = some c →
          (c.status ≠ CampaignStatus.ACTIVE →
            applyChecks s now uid iid cl? =
              some ApplyError.CampaignInactive) ∧
          (c.status = CampaignStatus.ACTIVE →
            (Date.ltb i.deadline now = true →
              applyChecks s now uid iid cl? =
                some ApplyError.DeadlinePassed) ∧
            (Date.ltb i.deadline now = false →
              ((∃ a, findApplication s iid uid = some a) →
                applyChecks s now uid iid cl? =
                  some ApplyError.DuplicateApplication) ∧
              (findApplication s iid uid = none →
                (latestActiveSubscription s uid now = none →
                  applyChecks s now uid iid cl? =
                    some ApplyError.SubscriptionRequired) ∧
                (∀ sub plan cap,
                  latestActiveSubscription s uid now = some sub →
                  findPlan s sub.planId = some plan →
                  plan.maxApplicationsPerMonth = some cap → cap ≠ 0 →
                  cap ≤ countApplicationsSince s uid (startOfMonth now) →
                  applyChecks s now uid iid cl? =
                    some (ApplyError.QuotaExceeded
                      (countApplicationsSince s uid (startOfMonth now))
                      cap)))))))) ∧
    (applyChecks s now uid iid cl? = none →
      applyToInternship s now uid iid cl? newId =
        (ApplyOutcome.ok (newApplication now uid iid newId (cl?.getD "")),
         { s with applications := s.applications ++
             [newApplication now uid iid newId (cl?.getD "")] }) ∧
      (newApplication now uid iid newId (cl?.getD "")).status =
        AppStatus.PENDING) ∧
    (∀ e, applyChecks s now uid iid cl? = some e →
      (applyToInternship s now uid iid cl? newId).2 = s) ∧
    ((∀ now2 uid2 appId2 st2,
        (updateApplicationStatus s now2 uid2 appId2 st2).2.applications.length
          = s.applications.length) ∧
     (∀ uid2 appId2 cl2,
        (updateApplication s uid2 appId2 cl2).2.applications.length
          = s.applications.length) ∧
     (∀ now2 uid2 r2 id2,
        (launchCampaign s now2 uid2 r2 id2).2.applications
          = s.applications) ∧
     (∀ uid2 cid2 r2,
        (editCampaign s uid2 cid2 r2).2.applications = s.applications)) := by
  refine ⟨?_, ?_, ?_, ?_, ?_, ?_, ?_, ?_⟩
  · intro h
    unfold applyChecks
    by_cases h1 : jsTruthyStr cl? = false ∨ (jsTrim (cl?.getD "")).length < 50
    · rw [if_pos h1]
    · rw [if_neg h1]
      rcases h with h | h | h
      · exact absurd (Or.inl h) h1
      · exact absurd (Or.inr h) h1
      · rw [if_pos h]
  · intro ht hlen hraw
    have hval : ¬ (jsTruthyStr cl? = false ∨
        (jsTrim (cl?.getD "")).length < 50) := by
      rw [ht]
      rintro (h | h)
      · cases h
      · omega
    unfold applyChecks
    rw [if_neg hval, if_neg (Nat.not_lt.mpr hraw)]
    refine ⟨fun hnone => by simp only [hnone], fun i hi => ?_⟩
    simp only [hi]
    refine ⟨fun hina => by rw [if_pos hina], fun hact c hc => ?_⟩
    rw [if_neg (by simp [hact])]
    simp only [hc]
    refine ⟨fun hcs => by rw [if_pos hcs], fun hcs => ?_⟩
    rw [if_neg (by simp [hcs])]
    refine ⟨fun hdl => by rw [if_pos hdl], fun hdl => ?_⟩
    rw [if_neg (by simp [hdl])]
    constructor
    · rintro ⟨a, ha⟩
      simp only [ha]
    · intro hdup
      simp only [hdup]
      refine ⟨fun hsub => by simp only [hsub],
        fun sub plan cap hsub hplan hcap hcap0 hge => ?_⟩
      simp only [hsub, hplan, hcap]
      rw [if_neg hcap0, if_pos hge]
  · intro hnone
    have hdup := applyChecks_none_no_dup s now uid iid cl? hnone
    have happ : applyToInternship s now uid iid cl? newId =
        (ApplyOutcome.ok (newApplication now uid iid newId (cl?.getD "")),
         { s with applications := s.applications ++
             [newApplication now uid iid newId (cl?.getD "")] }) := by
      unfold applyToInternship
      simp only [hnone]
      unfold createApplication
      simp only [newApplication, hdup, Option.isSome_none,
        Bool.false_eq_true, if_false]
    exact ⟨happ, rfl⟩
  · intro e he
    unfold applyToInternship
    simp only [he]
  · intro now2 uid2 appId2 st2
    unfold updateApplicationStatus
    repeat' split
    all_goals simp
  · intro uid2 appId2 cl2
    unfold updateApplication
    repeat' split
    all_goals simp
  · intro now2 uid2 r2 id2
    unfold launchCampaign
    repeat' split
    all_goals simp
  · intro uid2 cid2 r2
    unfold editCampaign
    repeat' split
    all_goals simp

/-- Closed instance of C1: on the demo store every precondition passes and
apply appends exactly one PENDING application. -/
theorem C1_apply_order_and_sole_creation_witness :
    applyToInternship demoStore dNow 1 10 (some goodLetter) 99 =
      (ApplyOutcome.ok (newApplication dNow 1 10 99 goodLetter),
       { demoStore with applications := demoStore.applications ++
           [newApplication dNow 1 10 99 goodLetter] }) ∧
    (newApplication dNow 1 10 99 goodLetter).status = AppStatus.PENDING :=
  (C1_apply_order_and_sole_creation demoStore dNow 1 10 99
    (some goodLetter)).2.2.1 (by decide)
